import Mathlib

/-
Shallow embedding of `tools/convert_onshape_dxf.py`.

DXF coordinates and angles are Python floats; they are modelled here as
exact rationals (ℚ).  The entity list of the parsed drawing (`dwg.entities`)
is a `List Entity`; each entity carries its geometric payload (dispatched
on `dxftype()`) and its `extrusion` attribute.  The command-line flags
dictionary `_flags` holds at most the keys `repair`, `verbose` and
`unit_conversion`, each mapped to a Python value; it is modelled as a
record of `Option PyVal` fields where `none` means the key is absent.
Python exceptions (`KeyError` on a missing dictionary key, `TypeError` on
`str + float`) are modelled with `Except PyErr`.
-/

namespace ConvertOnshapeDxf

/-- A 3-tuple coordinate `(x, y, z)` as the Python code indexes it. -/
structure Coord where
  x : ℚ
  y : ℚ
  z : ℚ
deriving DecidableEq

/-- Geometric payload of a DXF entity, dispatched on `entity.dxftype()`.
`other` covers every dxftype other than CIRCLE, ARC and LINE. -/
inductive EntityData where
  | circle (center : Coord)
  | arc (center : Coord) (start_angle end_angle : ℚ)
  | line (lstart lend : Coord)
  | other (kind : String)
deriving DecidableEq

/-- A drawing entity: its payload plus its `dxf.extrusion` attribute. -/
structure Entity where
  data : EntityData
  extrusion : Coord
deriving DecidableEq

/-- A Python value stored in the `_flags` dictionary. -/
inductive PyVal where
  | str (s : String)
  | float (q : ℚ)
  | bool (b : Bool)
deriving DecidableEq

/-- The `_flags` dictionary: `none` models an absent key. -/
structure Flags where
  repair : Option PyVal
  verbose : Option PyVal
  unit_conversion : Option PyVal
deriving DecidableEq

/-- Python exceptions the script can raise. -/
inductive PyErr where
  | keyError
  | typeError
deriving DecidableEq

/-- `flatten_coord`: return 3D coordinate flattened to the XY plane. -/
def flatten_coord (coord : Coord) : Coord :=
  ⟨coord.x, coord.y, 0⟩

/-- `scale_coord`: scale point coordinate units by a conversion factor. -/
def scale_coord (coord : Coord) (conversion : ℚ) : Coord :=
  ⟨coord.x * conversion, coord.y * conversion, coord.z * conversion⟩

/-- `mirror_coord`: coordinate mirrored about Y (X set to -X, Z set to -Z). -/
def mirror_coord (coord : Coord) : Coord :=
  ⟨-coord.x, coord.y, -coord.z⟩

/-- Python's `%` on rationals with a positive modulus: `x - y * floor (x / y)`. -/
def pymod (x y : ℚ) : ℚ :=
  x - y * (⌊x / y⌋ : ℚ)

/-- `mirror_angle`: `(180 - angle) % 360`. -/
def mirror_angle (angle : ℚ) : ℚ :=
  pymod (180 - angle) 360

/-- One loop iteration of `validate_negative_extrusion` on a single entity:
the returned `Nat` is the increment to `negative_extrusion_entities`.
An entity whose dxftype is neither CIRCLE nor ARC reaches the `else`
branch, which reads `flags['verbose']` by direct indexing and therefore
raises `KeyError` when the key is absent. -/
def negExtEntity (flags : Flags) (e : Entity) : Except PyErr (Nat × Entity) :=
  if e.extrusion.z < 0 then
    match e.data with
    | .circle c => .ok (1, ⟨.circle (mirror_coord c), ⟨0, 0, 1⟩⟩)
    | .arc c sa ea =>
        .ok (1, ⟨.arc (mirror_coord c) (mirror_angle ea) (mirror_angle sa), ⟨0, 0, 1⟩⟩)
    | d =>
        match flags.verbose with
        | none => .error .keyError
        | some _ => .ok (1, ⟨d, ⟨0, 0, 1⟩⟩)
  else
    .ok (0, e)

/-- `validate_negative_extrusion`: validate and repair entities with negative
extrusion direction, returning the defect count and the updated drawing. -/
def validate_negative_extrusion : List Entity → Flags → Except PyErr (Nat × List Entity)
  | [], _ => .ok (0, [])
  | e :: rest, flags =>
    match negExtEntity flags e with
    | .error err => .error err
    | .ok (n, e2) =>
      match validate_negative_extrusion rest flags with
      | .error err => .error err
      | .ok (m, rest2) => .ok (n + m, e2 :: rest2)

/-- The list `z` accumulated by `validate_z_plane`: the Z coordinates of all
CIRCLE/ARC centers and LINE start and end points, in entity order. -/
def zValues : List Entity → List ℚ
  | [] => []
  | e :: rest =>
    match e.data with
    | .circle c => c.z :: zValues rest
    | .arc c _ _ => c.z :: zValues rest
    | .line s t => s.z :: t.z :: zValues rest
    | .other _ => zValues rest

/-- `validate_z_plane`: returns `len(set(z))`, the number of distinct Z values. -/
def validate_z_plane (dwg : List Entity) (_flags : Flags) : Nat :=
  ((zValues dwg).dedup).length

/-- One loop iteration of `validate_z_zero` on a single entity: the returned
`Nat` is the increment to `non_z_zero`; the entity is flattened to Z = 0. -/
def zZeroEntity (e : Entity) : Nat × Entity :=
  match e.data with
  | .circle c =>
      ((if c.z ≠ 0 then 1 else 0), ⟨.circle (flatten_coord c), e.extrusion⟩)
  | .arc c sa ea =>
      ((if c.z ≠ 0 then 1 else 0), ⟨.arc (flatten_coord c) sa ea, e.extrusion⟩)
  | .line s t =>
      ((if s.z ≠ 0 ∨ t.z ≠ 0 then 1 else 0),
       ⟨.line (flatten_coord s) (flatten_coord t), e.extrusion⟩)
  | .other _ => (0, e)

/-- `validate_z_zero`: validate that the object is at Z=0, flattening every
CIRCLE/ARC center and LINE start/end and counting offending entities. -/
def validate_z_zero : List Entity → Flags → Nat × List Entity
  | [], _ => (0, [])
  | e :: rest, flags =>
    ((zZeroEntity e).1 + (validate_z_zero rest flags).1,
     (zZeroEntity e).2 :: (validate_z_zero rest flags).2)

/-- The per-entity body of the `scale` loop. -/
def scaleEntity (conversion : ℚ) (e : Entity) : Entity :=
  match e.data with
  | .circle c => ⟨.circle (scale_coord c conversion), e.extrusion⟩
  | .arc c sa ea => ⟨.arc (scale_coord c conversion) sa ea, e.extrusion⟩
  | .line s t => ⟨.line (scale_coord s conversion) (scale_coord t conversion), e.extrusion⟩
  | .other _ => e

/-- `scale`: scale point coordinate units by a conversion factor chosen from
`flags['unit_conversion']`; a no-op when the key is absent. -/
def scale (dwg : List Entity) (flags : Flags) : List Entity :=
  match flags.unit_conversion with
  | none => dwg
  | some v =>
    let conversion : ℚ :=
      if v = PyVal.str "metric" then 25.4
      else if v = PyVal.str "standard" then 1 / 25.4
      else 1
    dwg.map (scaleEntity conversion)

/-- Observable outcome of `main`: the final entity list, the file name passed
to `dwg.saveas` (if any), and whether the SUCCESS message was printed. -/
structure MainResult where
  dwg : List Entity
  saved : Option String
  successMessage : Bool
deriving DecidableEq

/-- `main`: run the four passes in order, then report and save.  The input
file name is split as `file_root ++ file_ext` (mirroring `os.path.splitext`).
On the defect-free path with `unit_conversion` present, the output name is
built by `file_root + ' ' + flags['unit_conversion'] + file_ext`; in Python
`str + float` raises `TypeError`, modelled by the non-`str` branch. -/
def main (file_root file_ext : String) (dwg : List Entity) (flags : Flags) :
    Except PyErr MainResult :=
  match validate_negative_extrusion dwg flags with
  | .error err => .error err
  | .ok (negCount, dwg1) =>
    let planes := validate_z_plane dwg1 flags
    let nz := validate_z_zero dwg1 flags
    let dwg3 := scale nz.2 flags
    if negCount = 0 ∧ planes = 1 ∧ nz.1 = 0 then
      match flags.unit_conversion with
      | some (.str s) => .ok ⟨dwg3, some (file_root ++ " " ++ s ++ file_ext), true⟩
      | some _ => .error .typeError
      | none => .ok ⟨dwg3, none, true⟩
    else
      .ok ⟨dwg3, some (file_root ++ " repaired" ++ file_ext), false⟩

/-- A command-line option recognised by `getopt` in `__main__`. -/
inductive CliOpt where
  | dontfix
  | standard
  | metric
  | verbose
deriving DecidableEq

/-- The `_flags` dictionary before option processing:
`repair = True`, `unit_conversion = 1.0`. -/
def initialFlags : Flags :=
  ⟨some (.bool true), none, some (.float 1)⟩

/-- Effect of one parsed option on `_flags`.  `-d` executes
`del _flags['repair']`, which raises `KeyError` when the key is already gone. -/
def applyOpt (f : Flags) (o : CliOpt) : Except PyErr Flags :=
  match o with
  | .dontfix =>
    match f.repair with
    | none => .error .keyError
    | some _ => .ok { f with repair := none }
  | .standard => .ok { f with unit_conversion := some (.str "standard") }
  | .metric => .ok { f with unit_conversion := some (.str "metric") }
  | .verbose => .ok { f with verbose := some (.bool true) }

/-- Fold `applyOpt` over the option list starting from a given dictionary. -/
def parseFlagsFrom (f : Flags) : List CliOpt → Except PyErr Flags
  | [] => .ok f
  | o :: rest =>
    match applyOpt f o with
    | .error err => .error err
    | .ok f2 => parseFlagsFrom f2 rest

/-- The flags dictionary produced by the `__main__` option loop. -/
def parseFlags (opts : List CliOpt) : Except PyErr Flags :=
  parseFlagsFrom initialFlags opts

/-- The angle update of the ARC branch of `validate_negative_extrusion`:
`(start_angle, end_angle) := (mirror_angle end_angle, mirror_angle start_angle)`. -/
def arcMirrorAngles (p : ℚ × ℚ) : ℚ × ℚ :=
  (mirror_angle p.2, mirror_angle p.1)

/-- Claim-side relation: `e2` is `e` with every recorded coordinate flattened
to Z = 0, X and Y untouched, and every other attribute unchanged. -/
def entityZFlat (e e2 : Entity) : Prop :=
  e2.extrusion = e.extrusion ∧
  match e.data, e2.data with
  | .circle c, .circle c2 => c2.x = c.x ∧ c2.y = c.y ∧ c2.z = 0
  | .arc c sa ea, .arc c2 sa2 ea2 =>
      c2.x = c.x ∧ c2.y = c.y ∧ c2.z = 0 ∧ sa2 = sa ∧ ea2 = ea
  | .line s t, .line s2 t2 =>
      s2.x = s.x ∧ s2.y = s.y ∧ s2.z = 0 ∧ t2.x = t.x ∧ t2.y = t.y ∧ t2.z = 0
  | .other k, .other k2 => k2 = k
  | _, _ => False

/-- Claim-side predicate: the entity has a recorded coordinate with Z ≠ 0. -/
def hadNonzeroZ (e : Entity) : Bool :=
  match e.data with
  | .circle c => decide (c.z ≠ 0)
  | .arc c _ _ => decide (c.z ≠ 0)
  | .line s t => decide (s.z ≠ 0) || decide (t.z ≠ 0)
  | .other _ => false

/-- Claim-side relation: `e2` is `e` with every recorded coordinate multiplied
componentwise by `k` and every other attribute unchanged. -/
def scaledBy (k : ℚ) (e e2 : Entity) : Prop :=
  e2.extrusion = e.extrusion ∧
  match e.data, e2.data with
  | .circle c, .circle c2 => c2 = ⟨c.x * k, c.y * k, c.z * k⟩
  | .arc c sa ea, .arc c2 sa2 ea2 =>
      c2 = ⟨c.x * k, c.y * k, c.z * k⟩ ∧ sa2 = sa ∧ ea2 = ea
  | .line s t, .line s2 t2 =>
      s2 = ⟨s.x * k, s.y * k, s.z * k⟩ ∧ t2 = ⟨t.x * k, t.y * k, t.z * k⟩
  | .other kd, .other kd2 => kd2 = kd
  | _, _ => False

/-- Claim-side predicate: the entity's dxftype is neither CIRCLE nor ARC. -/
def notCircleArc (e : Entity) : Bool :=
  match e.data with
  | .circle _ => false
  | .arc _ _ _ => false
  | _ => true

/-- Claim-side predicate: the entity's dxftype is not CIRCLE, ARC or LINE. -/
def isOtherEntity (e : Entity) : Bool :=
  match e.data with
  | .other _ => true
  | _ => false

lemma zZeroEntity_fst (e : Entity) :
    (zZeroEntity e).1 = if hadNonzeroZ e then 1 else 0 := by
  obtain ⟨d, ext⟩ := e
  cases d <;> simp [zZeroEntity, hadNonzeroZ]

lemma entityZFlat_zZeroEntity (e : Entity) : entityZFlat e (zZeroEntity e).2 := by
  obtain ⟨d, ext⟩ := e
  cases d <;> simp [zZeroEntity, entityZFlat, flatten_coord]

/-- C5: after `validate_z_zero`, every CIRCLE/ARC center and LINE start/end
has Z exactly 0 with X and Y unchanged, and the returned count is the number
of entities that had some non-zero recorded Z coordinate before flattening. -/
theorem validate_z_zero_flattens (dwg : List Entity) (flags : Flags) :
    List.Forall₂ entityZFlat dwg (validate_z_zero dwg flags).2 ∧
    (validate_z_zero dwg flags).1 = List.countP hadNonzeroZ dwg := by
  induction dwg with
  | nil => exact ⟨List.Forall₂.nil, rfl⟩
  | cons e rest ih =>
    refine ⟨List.Forall₂.cons (entityZFlat_zZeroEntity e) ih.1, ?_⟩
    show (zZeroEntity e).1 + (validate_z_zero rest flags).1 = _
    rw [List.countP_cons, ih.2, zZeroEntity_fst, Nat.add_comm]

lemma pymod_add_int_mul (x : ℚ) (k : ℤ) :
    pymod (x + (k : ℚ) * 360) 360 = pymod x 360 := by
  unfold pymod
  have h : (x + (k : ℚ) * 360) / 360 = x / 360 + (k : ℚ) := by
    field_simp
  rw [h, Int.floor_add_int]
  push_cast
  ring

lemma mirror_angle_twice (a : ℚ) :
    mirror_angle (mirror_angle a) = pymod a 360 := by
  unfold mirror_angle
  have h : (180 : ℚ) - pymod (180 - a) 360 = a + ((⌊(180 - a) / 360⌋ : ℤ) : ℚ) * 360 := by
    unfold pymod
    ring
  rw [h, pymod_add_int_mul]

/-- C9: the negative-extrusion repair is an involution on the geometry it
touches: `mirror_coord` is self-inverse, and the combined ARC angle update
`(start_angle, end_angle) := (mirror_angle end_angle, mirror_angle start_angle)`
applied twice restores the original angles modulo 360. -/
theorem mirror_repair_involution (c : Coord) (sa ea : ℚ) :
    mirror_coord (mirror_coord c) = c ∧
    ∃ k1 k2 : ℤ,
      arcMirrorAngles (arcMirrorAngles (sa, ea)) = (sa + 360 * k1, ea + 360 * k2) := by
  refine ⟨?_, -⌊sa / 360⌋, -⌊ea / 360⌋, ?_⟩
  · obtain ⟨x, y, z⟩ := c
    simp [mirror_coord]
  · show (mirror_angle (mirror_angle sa), mirror_angle (mirror_angle ea)) = _
    rw [mirror_angle_twice, mirror_angle_twice]
    unfold pymod
    refine Prod.ext ?_ ?_ <;> push_cast <;> ring

lemma scaledBy_scaleEntity (k : ℚ) (e : Entity) : scaledBy k e (scaleEntity k e) := by
  obtain ⟨d, ext⟩ := e
  cases d <;> simp [scaleEntity, scaledBy, scale_coord]

lemma forall₂_scaledBy_map (k : ℚ) (dwg : List Entity) :
    List.Forall₂ (scaledBy k) dwg (dwg.map (scaleEntity k)) := by
  induction dwg with
  | nil => exact List.Forall₂.nil
  | cons e rest ih => exact List.Forall₂.cons (scaledBy_scaleEntity k e) ih

/-- C6: with `unit_conversion = 'metric'` the scale pass multiplies every
X, Y and Z coordinate of every CIRCLE/ARC center and LINE start/end by 25.4;
with `'standard'` it multiplies them by 1/25.4; other entity kinds and all
non-coordinate attributes (including ARC angles) are unchanged. -/
theorem scale_unit_conversion (dwg : List Entity) (flags : Flags) :
    (flags.unit_conversion = some (.str "metric") →
      List.Forall₂ (scaledBy 25.4) dwg (scale dwg flags)) ∧
    (flags.unit_conversion = some (.str "standard") →
      List.Forall₂ (scaledBy (1 / 25.4)) dwg (scale dwg flags)) := by
  constructor <;> intro h <;> simp only [scale, h] <;>
    exact forall₂_scaledBy_map _ dwg

/-- C6 witness: a concrete CIRCLE under the metric conversion. -/
theorem scale_unit_conversion_witness :
    List.Forall₂ (scaledBy 25.4)
      [⟨.circle ⟨1, 2, 3⟩, ⟨0, 0, 1⟩⟩]
      (scale [⟨.circle ⟨1, 2, 3⟩, ⟨0, 0, 1⟩⟩] ⟨some (.bool true), none, some (.str "metric")⟩) :=
  (scale_unit_conversion [⟨.circle ⟨1, 2, 3⟩, ⟨0, 0, 1⟩⟩]
    ⟨some (.bool true), none, some (.str "metric")⟩).1 rfl

lemma negExtEntity_ok_of_not_trigger (flags : Flags) (e : Entity)
    (h : ¬(e.extrusion.z < 0 ∧ notCircleArc e = true)) :
    ∃ n e2, negExtEntity flags e = .ok (n, e2) := by
  obtain ⟨d, ext⟩ := e
  by_cases hz : ext.z < 0
  · cases d with
    | circle c =>
      exact ⟨1, ⟨.circle (mirror_coord c), ⟨0, 0, 1⟩⟩, by simp [negExtEntity, hz]⟩
    | arc c sa ea =>
      exact ⟨1, ⟨.arc (mirror_coord c) (mirror_angle ea) (mirror_angle sa), ⟨0, 0, 1⟩⟩,
        by simp [negExtEntity, hz]⟩
    | line s t => exact absurd ⟨hz, rfl⟩ h
    | other k => exact absurd ⟨hz, rfl⟩ h
  · exact ⟨0, ⟨d, ext⟩, by simp [negExtEntity, hz]⟩

lemma negExtEntity_error_of_trigger (flags : Flags) (e : Entity)
    (hv : flags.verbose = none)
    (hz : e.extrusion.z < 0) (hca : notCircleArc e = true) :
    negExtEntity flags e = .error .keyError := by
  obtain ⟨d, ext⟩ := e
  cases d with
  | circle c => simp [notCircleArc] at hca
  | arc c sa ea => simp [notCircleArc] at hca
  | line s t => simp [negExtEntity, hz, hv]
  | other k => simp [negExtEntity, hz, hv]

/-- C8: on any drawing holding an entity with negative extrusion Z whose
dxftype is neither CIRCLE nor ARC, `validate_negative_extrusion` raises
`KeyError` whenever the flags mapping lacks the key `verbose`, because the
fallback branch reads `flags['verbose']` by direct indexing. -/
theorem negext_missing_verbose_keyerror (dwg : List Entity) (flags : Flags)
    (hv : flags.verbose = none)
    (h : ∃ e ∈ dwg, e.extrusion.z < 0 ∧ notCircleArc e = true) :
    validate_negative_extrusion dwg flags = .error .keyError := by
  induction dwg with
  | nil => simp at h
  | cons e rest ih =>
    by_cases he : e.extrusion.z < 0 ∧ notCircleArc e = true
    · have herr := negExtEntity_error_of_trigger flags e hv he.1 he.2
      simp [validate_negative_extrusion, herr]
    · obtain ⟨n, e2, hok⟩ := negExtEntity_ok_of_not_trigger flags e he
      have hrest : ∃ x ∈ rest, x.extrusion.z < 0 ∧ notCircleArc x = true := by
        obtain ⟨x, hx, hxp⟩ := h
        rcases List.mem_cons.mp hx with hhead | htail
        · exact absurd (hhead ▸ hxp) he
        · exact ⟨x, htail, hxp⟩
      simp [validate_negative_extrusion, hok, ih hrest]

/-- C8 witness: a single LINE with extrusion (0, 0, -1) and no `verbose` key. -/
theorem negext_missing_verbose_keyerror_witness :
    validate_negative_extrusion [⟨.line ⟨0, 0, 0⟩ ⟨1, 0, 0⟩, ⟨0, 0, -1⟩⟩]
        ⟨some (.bool true), none, some (.float 1)⟩
      = .error .keyError :=
  negext_missing_verbose_keyerror _ _ rfl
    ⟨⟨.line ⟨0, 0, 0⟩ ⟨1, 0, 0⟩, ⟨0, 0, -1⟩⟩, by simp, by norm_num, rfl⟩

lemma nodup_all_eq {m : List ℚ} {z0 : ℚ} (hnd : m.Nodup)
    (hz0 : z0 ∈ m) (hsub : ∀ z ∈ m, z = z0) : m = [z0] := by
  cases m with
  | nil => cases hz0
  | cons a t =>
    have ha : a = z0 := hsub a (List.mem_cons_self a t)
    subst ha
    cases t with
    | nil => rfl
    | cons b t2 =>
      have hb : b = a := hsub b (by simp)
      subst hb
      rw [List.nodup_cons] at hnd
      exact absurd (List.mem_cons_self b t2) hnd.1

lemma dedup_eq_single {l : List ℚ} {z0 : ℚ} (hne : l ≠ [])
    (hall : ∀ z ∈ l, z = z0) : l.dedup = [z0] := by
  have hz0 : z0 ∈ l.dedup := by
    rw [List.mem_dedup]
    cases l with
    | nil => exact absurd rfl hne
    | cons a t =>
      have := hall a (List.mem_cons_self a t)
      rw [← this]
      exact List.mem_cons_self a t
  exact nodup_all_eq l.nodup_dedup hz0 (fun z hz => hall z (List.mem_dedup.mp hz))

/-- C3 counterexample: a drawing whose single CIRCLE center lies at Z = 0
(so every recorded Z coordinate shares the single value 0), on which
`validate_z_plane` returns 1, not 0. -/
theorem validate_z_plane_coplanar_not_zero :
    validate_z_plane [⟨.circle ⟨0, 0, 0⟩, ⟨0, 0, 1⟩⟩] initialFlags ≠ 0 ∧
    validate_z_plane [⟨.circle ⟨0, 0, 0⟩, ⟨0, 0, 1⟩⟩] initialFlags = 1 := by
  decide

/-- C3 (amended): `validate_z_plane` returns the number of distinct recorded
Z values; for every drawing with at least one CIRCLE/ARC center or LINE
endpoint, all sharing a single Z value, it returns 1. -/
theorem validate_z_plane_single_plane (dwg : List Entity) (flags : Flags) (z0 : ℚ)
    (hne : zValues dwg ≠ [])
    (hall : ∀ z ∈ zValues dwg, z = z0) :
    validate_z_plane dwg flags = 1 := by
  unfold validate_z_plane
  rw [dedup_eq_single hne hall]
  rfl

/-- C3 witness: one CIRCLE centered at Z = 5. -/
theorem validate_z_plane_single_plane_witness :
    validate_z_plane [⟨.circle ⟨1, 1, 5⟩, ⟨0, 0, 1⟩⟩] initialFlags = 1 :=
  validate_z_plane_single_plane [⟨.circle ⟨1, 1, 5⟩, ⟨0, 0, 1⟩⟩] initialFlags 5
    (by decide) (by decide)

lemma zValues_validate_z_zero (dwg : List Entity) (flags : Flags) :
    zValues (validate_z_zero dwg flags).2 = (zValues dwg).map (fun _ => (0 : ℚ)) := by
  induction dwg with
  | nil => rfl
  | cons e rest ih =>
    obtain ⟨d, ext⟩ := e
    cases d <;> simp [validate_z_zero, zZeroEntity, zValues, flatten_coord, ih]

lemma map_const_zero_of_all_zero : ∀ {l : List ℚ},
    (∀ z ∈ l, z = 0) → l.map (fun _ => (0 : ℚ)) = l
  | [], _ => rfl
  | a :: t, h => by
    have ha : a = 0 := h a (List.mem_cons_self a t)
    have ht := map_const_zero_of_all_zero (fun z hz => h z (List.mem_cons_of_mem a hz))
    simp [ha, ht]

/-- C7 counterexample: two CIRCLEs at Z = 0 and Z = 1; `validate_z_plane`
returns 2 when run before `validate_z_zero` but 1 when run after it, so the
two passes do not commute. -/
theorem validate_z_plane_order_counterexample :
    validate_z_plane
        [⟨.circle ⟨0, 0, 0⟩, ⟨0, 0, 1⟩⟩, ⟨.circle ⟨0, 0, 1⟩, ⟨0, 0, 1⟩⟩] initialFlags
      ≠ validate_z_plane
        (validate_z_zero
          [⟨.circle ⟨0, 0, 0⟩, ⟨0, 0, 1⟩⟩, ⟨.circle ⟨0, 0, 1⟩, ⟨0, 0, 1⟩⟩] initialFlags).2
        initialFlags ∧
    validate_z_plane
        [⟨.circle ⟨0, 0, 0⟩, ⟨0, 0, 1⟩⟩, ⟨.circle ⟨0, 0, 1⟩, ⟨0, 0, 1⟩⟩] initialFlags = 2 ∧
    validate_z_plane
        (validate_z_zero
          [⟨.circle ⟨0, 0, 0⟩, ⟨0, 0, 1⟩⟩, ⟨.circle ⟨0, 0, 1⟩, ⟨0, 0, 1⟩⟩] initialFlags).2
        initialFlags = 1 := by
  decide

/-- C7 (amended): the passes are not order-independent in general, since
`validate_z_zero` rewrites every recorded Z to 0; `validate_z_plane` returns
the same value before and after `validate_z_zero` when every recorded Z
coordinate of the drawing is already 0. -/
theorem validate_z_plane_commutes_when_flat (dwg : List Entity) (f g : Flags)
    (hall : ∀ z ∈ zValues dwg, z = 0) :
    validate_z_plane (validate_z_zero dwg g).2 f = validate_z_plane dwg f := by
  unfold validate_z_plane
  rw [zValues_validate_z_zero, map_const_zero_of_all_zero hall]

/-- C7 witness: a single LINE lying at Z = 0. -/
theorem validate_z_plane_commutes_when_flat_witness :
    validate_z_plane
        (validate_z_zero [⟨.line ⟨0, 0, 0⟩ ⟨1, 1, 0⟩, ⟨0, 0, 1⟩⟩] initialFlags).2 initialFlags
      = validate_z_plane [⟨.line ⟨0, 0, 0⟩ ⟨1, 1, 0⟩, ⟨0, 0, 1⟩⟩] initialFlags :=
  validate_z_plane_commutes_when_flat [⟨.line ⟨0, 0, 0⟩ ⟨1, 1, 0⟩, ⟨0, 0, 1⟩⟩]
    initialFlags initialFlags (by decide)

lemma negext_id_of_nonneg (dwg : List Entity) (flags : Flags)
    (h : ∀ e ∈ dwg, ¬e.extrusion.z < 0) :
    validate_negative_extrusion dwg flags = .ok (0, dwg) := by
  induction dwg with
  | nil => rfl
  | cons e rest ih =>
    have hz : ¬e.extrusion.z < 0 := h e (List.mem_cons_self e rest)
    have hrest := ih (fun x hx => h x (List.mem_cons_of_mem e hx))
    simp [validate_negative_extrusion, negExtEntity, hz, hrest]

lemma zValues_nil_of_other (dwg : List Entity)
    (h : ∀ e ∈ dwg, isOtherEntity e = true) : zValues dwg = [] := by
  induction dwg with
  | nil => rfl
  | cons e rest ih =>
    have he : isOtherEntity e = true := h e (List.mem_cons_self e rest)
    have hrest := ih (fun x hx => h x (List.mem_cons_of_mem e hx))
    obtain ⟨d, ext⟩ := e
    cases d <;> simp [isOtherEntity] at he <;> simp [zValues, hrest]

lemma z_zero_id_of_other (dwg : List Entity) (flags : Flags)
    (h : ∀ e ∈ dwg, isOtherEntity e = true) :
    validate_z_zero dwg flags = (0, dwg) := by
  induction dwg with
  | nil => rfl
  | cons e rest ih =>
    have he : isOtherEntity e = true := h e (List.mem_cons_self e rest)
    have hrest := ih (fun x hx => h x (List.mem_cons_of_mem e hx))
    obtain ⟨d, ext⟩ := e
    cases d <;> simp [isOtherEntity] at he <;> simp [validate_z_zero, zZeroEntity, hrest]

lemma scale_id_of_other (dwg : List Entity) (flags : Flags)
    (h : ∀ e ∈ dwg, isOtherEntity e = true) :
    scale dwg flags = dwg := by
  unfold scale
  cases flags.unit_conversion with
  | none => rfl
  | some v =>
    induction dwg with
    | nil => rfl
    | cons e rest ih =>
      have he : isOtherEntity e = true := h e (List.mem_cons_self e rest)
      have hrest := ih (fun x hx => h x (List.mem_cons_of_mem e hx))
      obtain ⟨d, ext⟩ := e
      cases d <;> simp [isOtherEntity] at he <;>
        simpa [scaleEntity] using hrest

/-- C10 counterexample: a drawing with no CIRCLE, ARC or LINE entity on which
`main` raises `KeyError` (an entity with negative extrusion Z reaches the
`flags['verbose']` read) instead of saving a repaired file. -/
theorem main_no_geometry_counterexample :
    main "part" ".dxf" [⟨.other "POLYLINE", ⟨0, 0, -1⟩⟩]
        ⟨some (.bool true), none, some (.float 1)⟩
      = .error .keyError := rfl

/-- C10 (amended): for every drawing containing no CIRCLE, ARC or LINE entity
and no entity with negative extrusion Z, `validate_z_plane` returns 0, so
`main` skips the success message and saves the output under the name with
` repaired` appended before the extension, while no entity is modified. -/
theorem main_no_geometry_saves_repaired (file_root file_ext : String)
    (dwg : List Entity) (flags : Flags)
    (hother : ∀ e ∈ dwg, isOtherEntity e = true)
    (hnn : ∀ e ∈ dwg, ¬e.extrusion.z < 0) :
    validate_z_plane dwg flags = 0 ∧
    main file_root file_ext dwg flags
      = .ok ⟨dwg, some (file_root ++ " repaired" ++ file_ext), false⟩ := by
  have h1 := negext_id_of_nonneg dwg flags hnn
  have h2 := zValues_nil_of_other dwg hother
  have h3 := z_zero_id_of_other dwg flags hother
  have h4 := scale_id_of_other dwg flags hother
  constructor
  · unfold validate_z_plane
    rw [h2]
    rfl
  · unfold main
    rw [h1]
    simp [validate_z_plane, h2, h3, h4]

/-- C10 witness: one POLYLINE entity with non-negative extrusion. -/
theorem main_no_geometry_saves_repaired_witness :
    validate_z_plane [⟨.other "POLYLINE", ⟨0, 0, 1⟩⟩] initialFlags = 0 ∧
    main "part" ".dxf" [⟨.other "POLYLINE", ⟨0, 0, 1⟩⟩] initialFlags
      = .ok ⟨[⟨.other "POLYLINE", ⟨0, 0, 1⟩⟩], some ("part" ++ " repaired" ++ ".dxf"), false⟩ :=
  main_no_geometry_saves_repaired "part" ".dxf" [⟨.other "POLYLINE", ⟨0, 0, 1⟩⟩]
    initialFlags (by decide) (by decide)

/-- C1: the `--dontfix` (`-d`) option removes `repair` from the flags mapping,
but no pass ever reads that key: with `repair` absent, `validate_z_zero`
still flattens a CIRCLE center from Z = 3 to Z = 0, `scale` (with flags as
produced for `-d -m`) still rescales it, and `validate_negative_extrusion`
still mirrors it, so the program does not behave in validate-only mode. -/
theorem dontfix_flag_ignored :
    parseFlags [CliOpt.dontfix] = .ok ⟨none, none, some (.float 1)⟩ ∧
    (validate_z_zero [⟨.circle ⟨1, 2, 3⟩, ⟨0, 0, 1⟩⟩] ⟨none, none, some (.float 1)⟩).2
      = [⟨.circle ⟨1, 2, 0⟩, ⟨0, 0, 1⟩⟩] ∧
    parseFlags [CliOpt.dontfix, CliOpt.metric] = .ok ⟨none, none, some (.str "metric")⟩ ∧
    scale [⟨.circle ⟨1, 2, 0⟩, ⟨0, 0, 1⟩⟩] ⟨none, none, some (.str "metric")⟩
      = [⟨.circle ⟨127 / 5, 254 / 5, 0⟩, ⟨0, 0, 1⟩⟩] ∧
    validate_negative_extrusion [⟨.circle ⟨1, 2, 3⟩, ⟨0, 0, -1⟩⟩] ⟨none, none, some (.float 1)⟩
      = .ok (1, [⟨.circle ⟨-1, 2, -3⟩, ⟨0, 0, 1⟩⟩]) :=
  ⟨rfl, rfl, rfl, by simp [scale, scaleEntity, scale_coord]; norm_num, rfl⟩

/-- C2: a LINE with negative extrusion Z is counted and its extrusion reset
to (0, 0, 1), but its start and end points are left unchanged — the LINE
falls into the `type not processed` branch, so no mirror transform is
applied, contrary to the function's own docstring. -/
theorem negext_line_not_mirrored :
    validate_negative_extrusion [⟨.line ⟨1, 2, 3⟩ ⟨4, 5, 6⟩, ⟨0, 0, -1⟩⟩]
        ⟨some (.bool true), some (.bool true), none⟩
      = .ok (1, [⟨.line ⟨1, 2, 3⟩ ⟨4, 5, 6⟩, ⟨0, 0, 1⟩⟩]) := rfl

/-- C4: with the flags produced by a bare command line (no options), where
`unit_conversion` holds the float 1.0, `main` on a defect-free drawing
reaches `file_root + ' ' + flags['unit_conversion']` and raises `TypeError`
(`str + float`), so no output file is saved. -/
theorem main_default_flags_raises_typeerror :
    parseFlags [] = .ok initialFlags ∧
    main "part" ".dxf" [⟨.circle ⟨0, 0, 0⟩, ⟨0, 0, 1⟩⟩] initialFlags
      = .error .typeError :=
  ⟨rfl, rfl⟩

end ConvertOnshapeDxf
